import Mathlib

/-!
Verification of the instrument-coordination core of the DMM_reader repository.

The definitions below are shallow embeddings of the Python sources:
  - `one_period_wave` embeds `one_period_wave` of `test7_GUI_Final.py`
    (lines 82-100), the pure waveform-preview computation;
  - `classifyDisc4` and `classifyDiscover2` embed the pass/fail labelling of
    `disc4.py` (line 90) and `discover2.py` (lines 69-72);
  - the session / lock / shutdown machinery of `test7_GUI_Final.py` and
    `test4.py` is embedded further below.

Machine floats of the Python code are modelled by exact rationals `ℚ`; the
transcendental `np.sin` is abstracted as an explicit function parameter
`sinT` (measured in turns: `sinT x` stands for `sin (2*pi*x)`), and the
random stream of `np.random.normal` as a parameter `randN` giving the i-th
standard-normal draw.  No claim settled here depends on the numeric values
of either, only on how the code routes them.
-/

/-- Python / numpy `%` (floor-mod) on rationals: `a - b * ⌊a / b⌋`. -/
def fmod (a b : ℚ) : ℚ := a - b * ⌊a / b⌋

/-- Embedding of `one_period_wave(wave, freq, high, low, duty, phase_deg, pts)`
from `test7_GUI_Final.py` lines 82-100, returning the list `y` of samples.

Mapping notes, all exact:
  - `np.linspace(0, period, pts, endpoint=False)` gives `t i = i * period / pts`;
  - `phase_rad / (2*pi*freq) = phase_deg / (360 * freq)` (the `pi` cancels);
  - the `SIN` branch `sin(2*pi*freq*t + phase_rad)` is `sinT (freq*t + phase/360)`;
  - the `RAMP` branch keeps the source's operator grouping: `*`, `%` and `/`
    share one precedence level in Python and associate left, so
    `(high - low) * (t + shift) % period / period + low` parses as
    `(((high - low) * (t + shift)) % period) / period + low`;
  - the final `else` branch (any unrecognized shape string) is the noise
    branch `np.random.normal(0.5*(high+low), 0.1*(high-low))`. -/
def one_period_wave (sinT : ℚ → ℚ) (randN : ℕ → ℚ) (wave : String)
    (freq high low duty phase : ℚ) (pts : ℕ) : List ℚ :=
  let period : ℚ := 1 / freq
  let shift : ℚ := phase / (360 * freq)
  (List.range pts).map fun (i : ℕ) =>
    let t : ℚ := (i : ℚ) * period / (pts : ℚ)
    if wave = "SIN" then
      1/2 * (high - low) * sinT (freq * t + phase / 360) + 1/2 * (high + low)
    else if wave = "SQU" then
      if fmod (t + shift) period < duty / 100 * period then high else low
    else if wave = "RAMP" then
      fmod ((high - low) * (t + shift)) period / period + low
    else if wave = "PULSE" then
      if fmod (t + shift) period < duty / 100 * period then high else low
    else if wave = "DC" then
      high
    else
      1/2 * (high + low) + 1/10 * (high - low) * randN i

/-- The RAMP behaviour the specification asserts ("linear ramp from low to
high across the phase-shifted period, wrapping"): sample `i` equals
`low + (high - low) * (x / period)` where `x` is the phase-shifted position
reduced into `[0, period)`.  Stated from the spec's words, for comparison
with the source embedding `one_period_wave`. -/
def rampSpecList (freq high low phase : ℚ) (pts : ℕ) : List ℚ :=
  let period : ℚ := 1 / freq
  let shift : ℚ := phase / (360 * freq)
  (List.range pts).map fun (i : ℕ) =>
    let t : ℚ := (i : ℚ) * period / (pts : ℚ)
    low + (high - low) * (fmod (t + shift) period / period)

/-- Embedding of the pass/fail labelling of `disc4.py` line 90:
`result = "PASSED" if 5 <= val <= 10 else "Failed"`. -/
def classifyDisc4 (val : ℚ) : String :=
  if 5 ≤ val ∧ val ≤ 10 then "PASSED" else "Failed"

/-- Embedding of the labelling printed by the main loop of `discover2.py`
lines 69-72: `if val <= 5: print("Failed")` then
`elif 5 <= val <= 10: print("PASSED")`; any other value prints no label,
modelled as `none`. -/
def classifyDiscover2 (val : ℚ) : Option String :=
  if val ≤ 5 then some "Failed"
  else if 5 ≤ val ∧ val ≤ 10 then some "PASSED"
  else none

/-- C6: on the disc4 variant the inclusive band behaves as the claim states
at all four boundary probes, but the discover2 variant labels 5.0 `Failed`
(its `val <= 5` branch is checked first) and gives no label at all to
10.001, contradicting the claim. -/
theorem passfail_boundaries :
    classifyDisc4 5 = "PASSED" ∧
    classifyDisc4 (4999/1000) = "Failed" ∧
    classifyDisc4 10 = "PASSED" ∧
    classifyDisc4 (10001/1000) = "Failed" ∧
    classifyDiscover2 5 = some "Failed" ∧
    classifyDiscover2 (10001/1000) = none := by
  refine ⟨?_, ?_, ?_, ?_, ?_, ?_⟩ <;>
    norm_num [classifyDisc4, classifyDiscover2]

/-- `fmod a b = a` whenever `0 ≤ a < b`: the floor-mod of a value already in
range is the value itself. -/
theorem fmod_eq_self {a b : ℚ} (h0 : 0 ≤ a) (hab : a < b) : fmod a b = a := by
  have hb : (0:ℚ) < b := lt_of_le_of_lt h0 hab
  have hz : ⌊a / b⌋ = 0 := by
    rw [Int.floor_eq_zero_iff]
    exact ⟨by positivity, (div_lt_one hb).mpr hab⟩
  unfold fmod
  rw [hz]
  ring

/-- C7: the RAMP branch of `one_period_wave` does not produce the linear ramp
`low + (high - low) * (x / period)` the claim states.  Python groups
`(high - low) * (t + shift) % period / period + low` as
`(((high - low) * (t + shift)) % period) / period + low`, so with
`high = 2, low = 0, freq = 1, phase = 0` and 5 samples the code yields
`[0, 2/5, 4/5, 1/5, 3/5]` (sample 3, at `t = 0.6 s`, is `0.2`), while the
claimed ramp yields `[0, 2/5, 4/5, 6/5, 8/5]` (sample 3 is `1.2`). -/
theorem ramp_precedence_divergence :
    one_period_wave (fun x => x) (fun _ => 0) "RAMP" 1 2 0 50 0 5 =
      [0, 2/5, 4/5, 1/5, 3/5] ∧
    rampSpecList 1 2 0 0 5 = [0, 2/5, 4/5, 6/5, 8/5] ∧
    one_period_wave (fun x => x) (fun _ => 0) "RAMP" 1 2 0 50 0 5 ≠
      rampSpecList 1 2 0 0 5 := by
  have h1 : one_period_wave (fun x => x) (fun _ => 0) "RAMP" 1 2 0 50 0 5 =
      [0, 2/5, 4/5, 1/5, 3/5] := by
    simp [one_period_wave, List.range_succ]
    norm_num [fmod, Int.fract]
  have h2 : rampSpecList 1 2 0 0 5 = [0, 2/5, 4/5, 6/5, 8/5] := by
    simp [rampSpecList, List.range_succ]
    norm_num [fmod, Int.fract]
  refine ⟨h1, h2, ?_⟩
  rw [h1, h2]
  intro hEq
  have := List.getElem_of_eq hEq (show 3 < 5 by norm_num)
  norm_num at this

/-- C8: the SQU and PULSE branches of `one_period_wave` are the same function
of the duty parameter, and in the concrete scenario (SQUARE, high 1, low 0,
duty 50, 1 kHz, phase 0, 500 samples) sample `i` is `1` exactly for the
first 250 indices and `0` for the last 250. -/
theorem square_pulse_duty :
    (∀ (sinT : ℚ → ℚ) (randN : ℕ → ℚ) (freq high low duty phase : ℚ)
        (pts : ℕ),
      one_period_wave sinT randN "SQU" freq high low duty phase pts =
      one_period_wave sinT randN "PULSE" freq high low duty phase pts) ∧
    (∀ i : ℕ, i < 500 →
      (one_period_wave (fun x => x) (fun _ => 0) "SQU" 1000 1 0 50 0 500)[i]? =
        some (if i < 250 then (1:ℚ) else 0)) := by
  constructor
  · intro sinT randN freq high low duty phase pts
    simp [one_period_wave]
  · intro i hi
    simp [one_period_wave, List.getElem?_map, List.getElem?_range, hi]
    have hiq : (i:ℚ) < 500 := by exact_mod_cast hi
    have h1 : fmod ((i:ℚ) * 1000⁻¹ / 500) 1000⁻¹ = (i:ℚ) * 1000⁻¹ / 500 :=
      fmod_eq_self (by positivity)
        (by rw [div_lt_iff₀ (by norm_num : (0:ℚ) < 500)]; nlinarith)
    rw [h1]
    by_cases h : i < 250
    · have hq : (i:ℚ) < 250 := by exact_mod_cast h
      rw [if_pos (by rw [div_lt_iff₀ (by norm_num : (0:ℚ) < 500)]; nlinarith),
        if_pos h]
    · have hq : (250:ℚ) ≤ (i:ℚ) := by exact_mod_cast Nat.not_lt.mp h
      have hc : ¬((i:ℚ) * 1000⁻¹ / 500 < 50 / 100 * 1000⁻¹) := by
        rw [not_lt, le_div_iff₀ (by norm_num : (0:ℚ) < 500)]
        nlinarith
      rw [if_neg hc, if_neg h]

/-- Witness for C8: at index 0 the concrete square preview is `1`. -/
theorem square_pulse_duty_witness :
    (one_period_wave (fun x => x) (fun _ => 0) "SQU" 1000 1 0 50 0 500)[0]? =
      some (1:ℚ) := by
  simpa using square_pulse_duty.2 0 (by norm_num)

/-- C9: for every recognized non-noise shape the preview is independent of
the random stream: two evaluations with the same parameters but arbitrary
random draws give the same sample list.  (The embedding is a pure function
of its parameters and takes no session or device state at all.) -/
theorem wave_deterministic (sinT : ℚ → ℚ) (r1 r2 : ℕ → ℚ) (wave : String)
    (freq high low duty phase : ℚ) (pts : ℕ)
    (h : wave ∈ ["SIN", "SQU", "RAMP", "PULSE", "DC"]) :
    one_period_wave sinT r1 wave freq high low duty phase pts =
    one_period_wave sinT r2 wave freq high low duty phase pts := by
  simp only [List.mem_cons, List.not_mem_nil, or_false] at h
  rcases h with rfl | rfl | rfl | rfl | rfl <;> simp [one_period_wave]

/-- Witness for C9: the SIN preview is unchanged when the random stream
changes. -/
theorem wave_deterministic_witness :
    one_period_wave (fun x => x) (fun _ => 0) "SIN" 1000 1 0 50 0 8 =
    one_period_wave (fun x => x) (fun n => (n:ℚ)) "SIN" 1000 1 0 50 0 8 :=
  wave_deterministic (fun x => x) (fun _ => 0) (fun n => (n:ℚ)) "SIN"
    1000 1 0 50 0 8 (by simp)

/-- C10: any shape string outside the recognized set falls through to the
final `else` branch: the function returns normally and produces exactly the
NOISE samples, as if the shape were `NOIS`. -/
theorem wave_fallthrough (sinT : ℚ → ℚ) (randN : ℕ → ℚ) (wave : String)
    (freq high low duty phase : ℚ) (pts : ℕ)
    (h : wave ∉ ["SIN", "SQU", "RAMP", "PULSE", "DC"]) :
    one_period_wave sinT randN wave freq high low duty phase pts =
    one_period_wave sinT randN "NOIS" freq high low duty phase pts := by
  simp only [List.mem_cons, List.not_mem_nil, or_false, not_or] at h
  obtain ⟨h1, h2, h3, h4, h5⟩ := h
  simp [one_period_wave, h1, h2, h3, h4, h5]

/-- Witness for C10: the typo shape `"SINE"` yields the NOISE preview. -/
theorem wave_fallthrough_witness :
    one_period_wave (fun x => x) (fun n => (n:ℚ)) "SINE" 1000 1 0 50 0 8 =
    one_period_wave (fun x => x) (fun n => (n:ℚ)) "NOIS" 1000 1 0 50 0 8 :=
  wave_fallthrough (fun x => x) (fun n => (n:ℚ)) "SINE"
    1000 1 0 50 0 8 (by simp)

/-- Logical device roles: the keys of `RESOURCE_NAMES = {"PS", "DMM", "FGEN"}`
in `test7_GUI_Final.py` / `test4.py`. -/
inductive Role where
  | PS
  | DMM
  | FGEN
deriving DecidableEq, Repr

/-- The (insertion-ordered) iteration order of the `RESOURCE_NAMES` dict. -/
def roleOrder : List Role := [Role.PS, Role.DMM, Role.FGEN]

/-- One pyvisa session: its role and whether the handle is currently open. -/
structure Sess where
  role : Role
  isOpen : Bool
deriving DecidableEq, Repr

/-- Outcome of `connect_instruments`. -/
inductive InitResult where
  | ok
  | missingDevice (r : Role)
  | connectionFailed (r : Role)
deriving DecidableEq, Repr

/-- `InitResult.missingDevice`, as a decidable test. -/
def InitResult.isMissing : InitResult → Bool
  | .missingDevice _ => true
  | _ => false

/-- `InitResult.connectionFailed`, as a decidable test. -/
def InitResult.isConnFailed : InitResult → Bool
  | .connectionFailed _ => true
  | _ => false

/-- The discovery check at the top of `connect_instruments` (both variants):
`for k in RESOURCE_NAMES: ... if RESOURCE_NAMES[k] is None: raise` — the
first role in dict order with no discovered address, if any.  It runs before
any session is opened. -/
def firstMissing (disc : Role → Option String) : Option Role :=
  roleOrder.find? fun r => (disc r).isNone

/-- test7 `init_instruments` via `open_resource_logged`: open one session per
role in dict order, appending every successfully opened session to
`_all_sessions`; a transport rejection (`openOk r = false`) raises out of the
loop, keeping the sessions opened so far.  Returns the first failing role (if
any) together with the tracked sessions. -/
def openSessions (openOk : Role → Bool) :
    List Role → List Sess → Option Role × List Sess
  | [], acc => (none, acc)
  | r :: rest, acc =>
    if openOk r then openSessions openOk rest (acc ++ [⟨r, true⟩])
    else (some r, acc)

/-- `for ses in self._all_sessions: try: ses.close() except: pass` of the
test7 `safe_exit`: every tracked session ends up closed. -/
def closeAll (ss : List Sess) : List Sess := ss.map fun s => ⟨s.role, false⟩

/-- test7_GUI_Final `connect_instruments` (lines 335-348): discovery check
before any open; any exception is caught and routed to `safe_exit`, which
closes every session recorded in `_all_sessions`. -/
def connect7 (disc : Role → Option String) (openOk : Role → Bool) :
    InitResult × List Sess :=
  match firstMissing disc with
  | some r => (.missingDevice r, [])
  | none =>
    match openSessions openOk roleOrder [] with
    | (some r, ss) => (.connectionFailed r, closeAll ss)
    | (none, ss) => (.ok, ss)

/-- test4 `connect_instruments` (lines 136-149) with the module-level
`init_instruments` (lines 52-59): same discovery check and open order, but
the opened sessions are not tracked anywhere, and on the failure path
`safe_exit` reaches its close loop only through `self.inst` — which is never
assigned when `init_instruments` raises — so nothing is closed. -/
def connect4 (disc : Role → Option String) (openOk : Role → Bool) :
    InitResult × List Sess :=
  match firstMissing disc with
  | some r => (.missingDevice r, [])
  | none =>
    match openSessions openOk roleOrder [] with
    | (some r, ss) => (.connectionFailed r, ss)
    | (none, ss) => (.ok, ss)

/-- Every role occurs in the dict iteration order. -/
theorem mem_roleOrder (r : Role) : r ∈ roleOrder := by
  cases r <;> simp [roleOrder]

/-- If some role fails to open, the open loop stops at some failing role,
returning exactly the sessions opened before it. -/
theorem openSessions_stops (openOk : Role → Bool) :
    ∀ (l : List Role) (acc : List Sess), (∃ r ∈ l, openOk r = false) →
      ∃ r0 ss, openSessions openOk l acc = (some r0, ss) := by
  intro l
  induction l with
  | nil => intro acc h; simp at h
  | cons r rest ih =>
    intro acc h
    by_cases hr : openOk r
    · obtain ⟨r1, hr1, hr1f⟩ := h
      have hne : r1 ≠ r := fun he => by rw [he, hr] at hr1f; cases hr1f
      have hmem : r1 ∈ rest := by
        rcases List.mem_cons.mp hr1 with h1 | h2
        · exact absurd h1 hne
        · exact h2
      obtain ⟨r0, ss, hss⟩ := ih (acc ++ [⟨r, true⟩]) ⟨r1, hmem, hr1f⟩
      exact ⟨r0, ss, by simp [openSessions, hr, hss]⟩
    · exact ⟨r, acc, by simp [openSessions, hr]⟩

/-- Everything in `closeAll ss` is closed. -/
theorem closeAll_closed (ss : List Sess) :
    (closeAll ss).all (fun s => !s.isOpen) = true := by
  simp [closeAll, List.all_eq_true]

/-- C2 (amended to the test7_GUI_Final variant): initialization is
all-or-nothing.  If any role has no discovered address, `connect_instruments`
raises before `init_instruments` runs, so it fails with a missing-device
error and zero sessions are ever opened; if the transport rejects an open,
the whole initialization fails with a connection error and every session
opened during the attempt is closed by `safe_exit` via `_all_sessions`. -/
theorem init_all_or_nothing (disc : Role → Option String) (openOk : Role → Bool)
    (r : Role) :
    (disc r = none →
      (connect7 disc openOk).1.isMissing = true ∧
      (connect7 disc openOk).2 = []) ∧
    ((∀ r0, (disc r0).isSome) → openOk r = false →
      (connect7 disc openOk).1.isConnFailed = true ∧
      (connect7 disc openOk).2.all (fun s => !s.isOpen) = true) := by
  constructor
  · intro hnone
    have hsome : (firstMissing disc).isSome := by
      rw [firstMissing, List.find?_isSome]
      exact ⟨r, mem_roleOrder r, by simp [hnone]⟩
    obtain ⟨r0, hr0⟩ := Option.isSome_iff_exists.mp hsome
    simp [connect7, hr0, InitResult.isMissing]
  · intro hall hfail
    have hnone : firstMissing disc = none := by
      rw [firstMissing, List.find?_eq_none]
      intro x hx
      cases hdx : disc x with
      | none => have := hall x; rw [hdx] at this; cases this
      | some v => simp [hdx]
    obtain ⟨r0, ss, hss⟩ :=
      openSessions_stops openOk roleOrder [] ⟨r, mem_roleOrder r, hfail⟩
    simp [connect7, hnone, hss, InitResult.isConnFailed, closeAll_closed]

/-- Witness for C2: with the DMM undiscovered the init fails missing-device
with no sessions; with all roles discovered but the DMM open rejected it
fails connection-failed with every tracked session closed. -/
theorem init_all_or_nothing_witness :
    ((connect7 (fun r => if r = Role.DMM then none else some "USB0")
        (fun _ => true)).1.isMissing = true ∧
      (connect7 (fun r => if r = Role.DMM then none else some "USB0")
        (fun _ => true)).2 = []) ∧
    ((connect7 (fun _ => some "USB0")
        (fun r => !(r == Role.DMM))).1.isConnFailed = true ∧
      (connect7 (fun _ => some "USB0")
        (fun r => !(r == Role.DMM))).2.all (fun s => !s.isOpen) = true) :=
  ⟨(init_all_or_nothing _ _ Role.DMM).1 rfl,
   (init_all_or_nothing _ _ Role.DMM).2 (fun r0 => by cases r0 <;> rfl) rfl⟩

/-- C2 counterexample, on the cited test4 variant: all three roles are
discovered and the transport rejects only the DMM open.  Initialization
fails, but the PS session opened before the failure is never closed (test4
tracks nothing and its `safe_exit` only closes via the never-assigned
`self.inst`) — a partial leak, contradicting the claim's "no partial leak". -/
theorem init_partial_leak_test4 :
    connect4 (fun _ => some "USB0") (fun r => !(r == Role.DMM)) =
      (InitResult.connectionFailed Role.DMM, [⟨Role.PS, true⟩]) ∧
    Sess.isOpen ⟨Role.PS, true⟩ = true :=
  ⟨rfl, rfl⟩

/-- `self.inst[r]` write/query: succeeds iff the session opened for role `r`
is still open (pyvisa raises `InvalidSession` on a closed handle before any
transport I/O happens). -/
def writeOk (ss : List Sess) (r : Role) : Bool :=
  match ss.find? (fun s => s.role == r) with
  | some s => s.isOpen
  | none => false

/-- The state of the test7_GUI_Final application as far as shutdown is
concerned: `self.run_flag`, whether `self.inst` was assigned, the sessions
in `_all_sessions` with their open flags, whether the pyvisa
`ResourceManager` is still open, and the transport-call trace of the fake
instruments. -/
structure Sys7 where
  runFlag : Bool
  instSet : Bool
  sessions : List Sess
  rmOpen : Bool
  trace : List String
deriving DecidableEq, Repr

/-- Embedding of test7 `safe_exit` (lines 350-372):
`run_flag = False`; then one try/except around both output-disable writes
(so a failing PS write skips the FGEN write, and any failure is swallowed);
then a try/except around each individual session close; then a guarded
`rm.close()`.  The trace records the transport calls that actually reach a
device: a write or close on an already-closed handle raises before any I/O
and is caught.  (The final `self.quit()/self.destroy()` touch only the GUI
collaborator and are outside the modelled core.) -/
def safe_exit7 (s : Sys7) : Sys7 :=
  let outTrace :=
    if s.instSet then
      if writeOk s.sessions Role.PS then
        if writeOk s.sessions Role.FGEN then
          ["PS.write OP1 0", "FGEN.write OUTP1 OFF"]
        else ["PS.write OP1 0"]
      else []
    else []
  let closeTrace := (s.sessions.filter fun x => x.isOpen).map fun _ => "session.close"
  { runFlag := false
    instSet := s.instSet
    sessions := closeAll s.sessions
    rmOpen := false
    trace := s.trace ++ outTrace ++ closeTrace }

/-- After `closeAll` no role lookup finds an open session. -/
theorem writeOk_closeAll (ss : List Sess) (r : Role) :
    writeOk (closeAll ss) r = false := by
  induction ss with
  | nil => rfl
  | cons x xs ih =>
    by_cases h : (x.role == r) = true
    · simp [writeOk, closeAll, List.find?_cons_of_pos, h]
    · simpa [writeOk, closeAll, List.find?_cons_of_neg, h] using ih

/-- After `closeAll` nothing is left open to close. -/
theorem filter_closeAll (ss : List Sess) :
    (closeAll ss).filter (fun x => x.isOpen) = [] := by
  simp [closeAll, List.filter_map]

/-- Closing everything twice is the same as once. -/
theorem closeAll_closeAll (ss : List Sess) :
    closeAll (closeAll ss) = closeAll ss := by
  simp [closeAll, List.map_map]

/-- C3: test7 `safe_exit` is idempotent: a second call leaves the state
unchanged and, in particular, appends nothing to the transport-call trace —
the second invocation performs no device I/O (every session is already
closed, so its write and close attempts raise before any I/O and are
swallowed). -/
theorem shutdown_idempotent (s : Sys7) :
    safe_exit7 (safe_exit7 s) = safe_exit7 s ∧
    (safe_exit7 (safe_exit7 s)).trace = (safe_exit7 s).trace := by
  have h : safe_exit7 (safe_exit7 s) = safe_exit7 s := by
    simp [safe_exit7, writeOk_closeAll, filter_closeAll, closeAll_closeAll]
  exact ⟨h, by rw [h]⟩

/-- Fault injection for the shutdown steps: `psW` / `fgW` make the two
output-disable writes raise, `closeF i` makes the close of the i-th tracked
session raise, `rmF` makes `rm.close()` raise. -/
structure Faults where
  psW : Bool
  fgW : Bool
  closeF : ℕ → Bool
  rmF : Bool

/-- The per-session close loop of test7 `safe_exit` under fault injection:
each close is individually wrapped in try/except, so a faulted close leaves
that session as it was and the loop continues with the next one. -/
def closeAllF (cf : ℕ → Bool) (ss : List Sess) : List Sess :=
  ss.enum.map fun p => if cf p.1 then p.2 else ⟨p.2.role, false⟩

/-- Embedding of test7 `safe_exit` under fault injection, with the same
structure as `safe_exit7`: the two writes share one try/except (a raising
PS write skips the FGEN write), every close has its own try/except, and
`rm.close()` has its own.  The result is an `Except` so that an exception
not caught by those handlers would surface as `.error`. -/
def safe_exit7F (f : Faults) (s : Sys7) : Except String Sys7 :=
  let outTrace :=
    if s.instSet then
      if writeOk s.sessions Role.PS && !f.psW then
        if writeOk s.sessions Role.FGEN && !f.fgW then
          ["PS.write OP1 0", "FGEN.write OUTP1 OFF"]
        else ["PS.write OP1 0"]
      else []
    else []
  let closeTrace :=
    (s.sessions.enum.filter fun p => p.2.isOpen && !f.closeF p.1).map
      fun _ => "session.close"
  Except.ok
    { runFlag := false
      instSet := s.instSet
      sessions := closeAllF f.closeF s.sessions
      rmOpen := s.rmOpen && f.rmF
      trace := s.trace ++ outTrace ++ closeTrace }

/-- C4 (amended to the test7_GUI_Final variant): for every fault pattern the
shutdown returns normally (never `.error`), clears the run flag, still
closes any session whose own close does not fault — even when both
output-disable writes and other closes fault — and still releases the
resource manager when its close does not fault. -/
theorem shutdown_total (f : Faults) (s : Sys7) (i : ℕ) (x : Sess)
    (hx : s.sessions[i]? = some x) (hc : f.closeF i = false)
    (hr : f.rmF = false) :
    (safe_exit7F f s).isOk = true ∧
    (safe_exit7F f s).toOption.map Sys7.runFlag = some false ∧
    (safe_exit7F f s).toOption.map (fun u => u.sessions[i]?) =
      some (some ⟨x.role, false⟩) ∧
    (safe_exit7F f s).toOption.map Sys7.rmOpen = some false := by
  refine ⟨rfl, rfl, ?_, ?_⟩
  · simp [safe_exit7F, Except.toOption, closeAllF, List.getElem?_map,
      List.getElem?_enum, hx, hc]
  · simp [safe_exit7F, Except.toOption, hr]

/-- Witness for C4: a state with three open sessions, both writes faulted,
every close except the first faulted, resource manager close not faulted. -/
theorem shutdown_total_witness :
    (safe_exit7F ⟨true, true, fun j => !(j == 0), false⟩
        ⟨true, true, [⟨Role.PS, true⟩, ⟨Role.DMM, true⟩, ⟨Role.FGEN, true⟩],
          true, []⟩).isOk = true ∧
    (safe_exit7F ⟨true, true, fun j => !(j == 0), false⟩
        ⟨true, true, [⟨Role.PS, true⟩, ⟨Role.DMM, true⟩, ⟨Role.FGEN, true⟩],
          true, []⟩).toOption.map Sys7.runFlag = some false ∧
    (safe_exit7F ⟨true, true, fun j => !(j == 0), false⟩
        ⟨true, true, [⟨Role.PS, true⟩, ⟨Role.DMM, true⟩, ⟨Role.FGEN, true⟩],
          true, []⟩).toOption.map (fun u => u.sessions[0]?) =
      some (some ⟨Role.PS, false⟩) ∧
    (safe_exit7F ⟨true, true, fun j => !(j == 0), false⟩
        ⟨true, true, [⟨Role.PS, true⟩, ⟨Role.DMM, true⟩, ⟨Role.FGEN, true⟩],
          true, []⟩).toOption.map Sys7.rmOpen = some false :=
  shutdown_total ⟨true, true, fun j => !(j == 0), false⟩
    ⟨true, true, [⟨Role.PS, true⟩, ⟨Role.DMM, true⟩, ⟨Role.FGEN, true⟩],
      true, []⟩ 0 ⟨Role.PS, true⟩ rfl rfl rfl

/-- The state of the test4 application as far as shutdown is concerned (test4
has no `_all_sessions` tracking and no `rm.close()` step). -/
structure Sys4 where
  runFlag : Bool
  instSet : Bool
  sessions : List Sess
  trace : List String
deriving DecidableEq, Repr

/-- The close loop of test4 `safe_exit` (lines 186-187):
`for i in self.inst.values(): i.close()` — NOT wrapped in try/except.  The
first faulted close raises out of the loop, leaving that session and all the
remaining ones untouched. -/
def closeSeq4 (cf : ℕ → Bool) : ℕ → List Sess → Except String Unit × List Sess
  | _, [] => (.ok (), [])
  | i, x :: rest =>
    if cf i then (.error "close raised", x :: rest)
    else
      let p := closeSeq4 cf (i + 1) rest
      (p.1, ⟨x.role, false⟩ :: p.2)

/-- Embedding of test4 `safe_exit` (lines 178-189) under fault injection:
the two output-disable writes share one try/except, but the per-session
close loop is unguarded, so a close failure propagates out of `safe_exit`
(skipping the remaining closes and the `quit`/`destroy` calls). -/
def safe_exit4F (f : Faults) (s : Sys4) : Except String Unit × Sys4 :=
  let outTrace :=
    if s.instSet then
      if writeOk s.sessions Role.PS && !f.psW then
        if writeOk s.sessions Role.FGEN && !f.fgW then
          ["PS.write OP1 0", "FGEN.write OUTP1 OFF"]
        else ["PS.write OP1 0"]
      else []
    else []
  if s.instSet then
    let p := closeSeq4 f.closeF 0 s.sessions
    (p.1, { runFlag := false, instSet := s.instSet, sessions := p.2,
            trace := s.trace ++ outTrace })
  else
    (.ok (), { runFlag := false, instSet := s.instSet,
               sessions := s.sessions, trace := s.trace ++ outTrace })

/-- C4 counterexample, on the cited test4 variant: with three open sessions
and a first close that raises, `safe_exit` propagates the exception past its
own boundary and every session — including the two whose closes were never
attempted — stays open. -/
theorem shutdown_raises_test4 :
    (safe_exit4F ⟨false, false, fun _ => true, false⟩
        ⟨true, true, [⟨Role.PS, true⟩, ⟨Role.DMM, true⟩, ⟨Role.FGEN, true⟩],
          []⟩).1 = .error "close raised" ∧
    (safe_exit4F ⟨false, false, fun _ => true, false⟩
        ⟨true, true, [⟨Role.PS, true⟩, ⟨Role.DMM, true⟩, ⟨Role.FGEN, true⟩],
          []⟩).2.sessions =
      [⟨Role.PS, true⟩, ⟨Role.DMM, true⟩, ⟨Role.FGEN, true⟩] :=
  ⟨rfl, rfl⟩

/-- Per-cycle transport outcomes for one iteration of the test7 `poll_loop`:
the float-parsed reply to `PS "V1?"` (`none` means the query or the parse
raised), whether `DMM.write "CONF:VOLT:DC 10"` succeeded, and the parsed
reply to `DMM "READ?"`. -/
structure CycleOutcome where
  psReply : Option ℚ
  dmmWriteOk : Bool
  dmmReply : Option ℚ

/-- The try-block body of one poll cycle (test7 `poll_loop` lines 290-297):
query the PS read-back, configure and query the DMM, and return the pair
published to the display; any device failure raises. -/
def pollCycle (c : CycleOutcome) : Except String (ℚ × ℚ) :=
  match c.psReply with
  | none => .error "PS query raised"
  | some vps =>
    if c.dmmWriteOk then
      match c.dmmReply with
      | none => .error "DMM query raised"
      | some vdmm => .ok (vps, vdmm)
    else .error "DMM write raised"

/-- Embedding of test7 `poll_loop` (lines 287-300):
`while self.run_flag: try: <cycle> except Exception: pass; time.sleep(0.5)`.
`fuel` bounds the number of iterations modelled, `flag n` is the value of
`self.run_flag` read at the top of iteration `n`, and `oracle n` the device
behaviour during cycle `n` (the steady state where `self.inst` is set).
The result collects the published telemetry pairs; the `.error` arms exist
so that a cycle exception NOT caught by the source's except-pass would
surface — the embedded `except: pass` is the arm that drops the error and
continues. -/
def poll_loop (oracle : ℕ → CycleOutcome) (flag : ℕ → Bool) :
    ℕ → ℕ → Except String (List (ℚ × ℚ))
  | 0, _ => .ok []
  | fuel + 1, n =>
    if flag n then
      match pollCycle (oracle n), poll_loop oracle flag fuel (n + 1) with
      | .ok t, .ok rest => .ok (t :: rest)
      | .ok _, .error e => .error e
      | .error _, .ok rest => .ok rest
      | .error _, .error e => .error e
    else .ok []

/-- The telemetry the loop publishes over `fuel` cycles from cycle `n` when
the run flag stays set: each successful cycle contributes its snapshot,
each failed cycle contributes nothing. -/
def publishedRun (oracle : ℕ → CycleOutcome) : ℕ → ℕ → List (ℚ × ℚ)
  | 0, _ => []
  | fuel + 1, n =>
    match pollCycle (oracle n) with
    | .ok t => t :: publishedRun oracle fuel (n + 1)
    | .error _ => publishedRun oracle fuel (n + 1)

/-- A device oracle whose first three cycles all fail and which recovers
from cycle 4 (index 3) on, always reading 5 V. -/
def failThreeThenOk : ℕ → CycleOutcome :=
  fun n => if n < 3 then ⟨none, false, none⟩ else ⟨some 5, true, some 5⟩

/-- The loop never propagates an error, for any oracle and flag sequence. -/
theorem poll_loop_ok (oracle : ℕ → CycleOutcome) (flag : ℕ → Bool) :
    ∀ (fuel n : ℕ), ∃ l, poll_loop oracle flag fuel n = .ok l := by
  intro fuel
  induction fuel with
  | zero => exact fun n => ⟨[], rfl⟩
  | succ fuel ih =>
    intro n
    obtain ⟨l, hl⟩ := ih (n + 1)
    by_cases h : flag n
    · cases hc : pollCycle (oracle n) with
      | ok t => exact ⟨t :: l, by simp [poll_loop, h, hc, hl]⟩
      | error e => exact ⟨l, by simp [poll_loop, h, hc, hl]⟩
    · exact ⟨[], by simp [poll_loop, h]⟩

/-- C5: (1) for every sequence of cycle outcomes and every flag sequence the
loop's result is a normal `.ok` — no exception from a cycle propagates to
the caller; (2) while the run flag stays set the loop keeps running through
every cycle, publishing exactly the successful snapshots (failed cycles are
swallowed and the loop proceeds); (3) when the flag is observed cleared the
loop exits; (4) concretely, with every device query failing for 3
consecutive cycles, the loop is still running and publishes the cycle-4
telemetry once the transport recovers. -/
theorem poller_never_exits_on_error :
    (∀ (oracle : ℕ → CycleOutcome) (flag : ℕ → Bool) (fuel n : ℕ),
      (poll_loop oracle flag fuel n).isOk = true) ∧
    (∀ (oracle : ℕ → CycleOutcome) (fuel n : ℕ),
      poll_loop oracle (fun _ => true) fuel n =
        .ok (publishedRun oracle fuel n)) ∧
    (∀ (oracle : ℕ → CycleOutcome) (fuel n : ℕ),
      poll_loop oracle (fun _ => false) (fuel + 1) n = .ok []) ∧
    poll_loop failThreeThenOk (fun _ => true) 4 0 = .ok [(5, 5)] := by
  refine ⟨?_, ?_, ?_, rfl⟩
  · intro oracle flag fuel n
    obtain ⟨l, hl⟩ := poll_loop_ok oracle flag fuel n
    rw [hl]
    rfl
  · intro oracle fuel
    induction fuel with
    | zero => intro n; rfl
    | succ fuel ih =>
      intro n
      cases hc : pollCycle (oracle n) with
      | ok t => simp [poll_loop, publishedRun, hc, ih (n + 1)]
      | error e => simp [poll_loop, publishedRun, hc, ih (n + 1)]
  · intro oracle fuel n
    simp [poll_loop]

/-- Atomic events of the device-access layer: acquiring and releasing the
single `threading.Lock`, and a transport call (a pyvisa write or query)
carrying its protocol string. -/
inductive Act where
  | acq : Act
  | rel : Act
  | call (msg : String) : Act
deriving DecidableEq, Repr

/-- test7 `ps_write` (lines 142-144): `with self.lock: self.inst["PS"].write(cmd)`. -/
def ps_write (cmd : String) : List Act :=
  [.acq, .call ("PS.write " ++ cmd), .rel]

/-- test7 `ps_query` (lines 146-148). -/
def ps_query (cmd : String) : List Act :=
  [.acq, .call ("PS.query " ++ cmd), .rel]

/-- test7 `dmm_query` (lines 150-152). -/
def dmm_query (cmd : String) : List Act :=
  [.acq, .call ("DMM.query " ++ cmd), .rel]

/-- test7 `fg_write` (lines 154-156). -/
def fg_write (cmd : String) : List Act :=
  [.acq, .call ("FGEN.write " ++ cmd), .rel]

/-- test7 `fg_query` (lines 158-160). -/
def fg_query (cmd : String) : List Act :=
  [.acq, .call ("FGEN.query " ++ cmd), .rel]

/-- The critical section of one iteration of test7 `poll_loop` (lines
291-296): `with self.lock:` around the PS read-back query, the DMM
configuration write and the DMM read. -/
def poll_cycle7 : List Act :=
  [.acq, .call "PS.query V1?", .call "DMM.write CONF:VOLT:DC 10",
   .call "DMM.query READ?", .rel]

/-- test4 `slider_moved` (lines 151-155): the PS write happens with NO lock
(test4 has no `self.lock` at all). -/
def slider_moved4 (v : String) : List Act := [.call ("PS.write V1 " ++ v)]

/-- One iteration of test4 `poll_loop` (lines 157-176): the same three
transport calls as test7, but with no lock around them. -/
def poll_cycle4 : List Act :=
  [.call "PS.query V1?", .call "DMM.write CONF:VOLT:DC 10",
   .call "DMM.query READ?"]

/-- An event of a two-thread execution: which thread performed the action. -/
abbrev Ev := Bool × Act

/-- The events of one thread's operation. -/
def tag (b : Bool) (l : List Act) : List Ev := l.map fun a => (b, a)

/-- Semantics of the single global `threading.Lock`: the state is the
identity of the holder (or `none`); acquiring blocks unless free, releasing
is only possible for the holder, transport calls do not touch the lock.
`none` as a result marks an event that cannot happen in that state. -/
def lockStep : Option Bool → Ev → Option (Option Bool)
  | none, (t, .acq) => some (some t)
  | some _, (_, .acq) => none
  | some o, (t, .rel) => if o = t then some none else none
  | none, (_, .rel) => none
  | st, (_, .call _) => some st

/-- A trace is valid from a lock state when every event is enabled: blocked
acquires never appear in a completed execution (the blocked thread simply
runs later). -/
def validFrom : Option Bool → List Ev → Bool
  | _, [] => true
  | st, e :: r =>
    match lockStep st e with
    | none => false
    | some st2 => validFrom st2 r

/-- `Interleave xs ys zs`: `zs` is an order-preserving merge of the two
threads' event sequences `xs` and `ys` — every way the scheduler can overlap
the two operations. -/
inductive Interleave : List Ev → List Ev → List Ev → Prop where
  | nil : Interleave [] [] []
  | left {x : Ev} {xs ys zs : List Ev} :
      Interleave xs ys zs → Interleave (x :: xs) ys (x :: zs)
  | right {y : Ev} {xs ys zs : List Ev} :
      Interleave xs ys zs → Interleave xs (y :: ys) (y :: zs)

/-- Merging nothing on the left leaves the right sequence. -/
theorem interleave_nil_left {ys zs : List Ev} (h : Interleave [] ys zs) :
    zs = ys := by
  have key : ∀ xs ys zs : List Ev, Interleave xs ys zs → xs = [] → zs = ys := by
    intro xs ys zs h
    induction h with
    | nil => intro _; rfl
    | left h2 ih => intro hx; cases hx
    | right h2 ih => intro hx; rw [ih hx]
  exact key [] ys zs h rfl

/-- Interleaving is symmetric in the two threads. -/
theorem interleave_swap {xs ys zs : List Ev} (h : Interleave xs ys zs) :
    Interleave ys xs zs := by
  induction h with
  | nil => exact .nil
  | left h2 ih => exact .right ih
  | right h2 ih => exact .left ih

/-- Running one operation to completion before the other is one particular
interleaving. -/
theorem interleave_append (xs ys : List Ev) : Interleave xs ys (xs ++ ys) := by
  induction xs with
  | nil =>
    induction ys with
    | nil => exact .nil
    | cons y ys ih => exact .right ih
  | cons x xs ih => exact .left ih

/-- A sequence of pure transport calls (no lock operations). -/
def callsOnly (l : List Act) : Bool :=
  l.all fun a => match a with | .call _ => true | _ => false

/-- Once thread `a` holds the lock, a valid interleaving must let it finish
its remaining calls and its release before the other thread (whose next
event is its own acquire) can do anything. -/
theorem holder_runs {a b : Bool} :
    ∀ (body : List Act), callsOnly body = true →
    ∀ (other : List Act) (tr : List Ev),
      Interleave (tag a (body ++ [Act.rel])) (tag b (Act.acq :: other)) tr →
      validFrom (some a) tr = true →
      tr = tag a (body ++ [Act.rel]) ++ tag b (Act.acq :: other) := by
  intro body
  induction body with
  | nil =>
    intro _ other tr hI hv
    rw [show tag a ([] ++ [Act.rel]) = (a, Act.rel) :: [] from rfl,
      show tag b (Act.acq :: other) = (b, Act.acq) :: tag b other from rfl] at hI
    cases hI with
    | left hI2 =>
      have h2 := interleave_nil_left hI2
      rw [h2]
      rfl
    | right hI2 =>
      simp [validFrom, lockStep] at hv
  | cons x rest ih =>
    intro hco other tr hI hv
    have hx : ∃ m, x = Act.call m := by
      cases x with
      | call m => exact ⟨m, rfl⟩
      | acq => simp [callsOnly] at hco
      | rel => simp [callsOnly] at hco
    obtain ⟨m, rfl⟩ := hx
    have hco2 : callsOnly rest = true := by
      simp [callsOnly] at hco ⊢
      exact hco
    rw [show tag a ((Act.call m :: rest) ++ [Act.rel]) =
        (a, Act.call m) :: tag a (rest ++ [Act.rel]) from rfl,
      show tag b (Act.acq :: other) = (b, Act.acq) :: tag b other from rfl] at hI
    cases hI with
    | left hI2 =>
      rename_i tr2
      have hv2 : validFrom (some a) tr2 = true := by
        simpa [validFrom, lockStep] using hv
      have h3 := ih hco2 other tr2 hI2 hv2
      rw [show tag a ((Act.call m :: rest) ++ [Act.rel]) =
          (a, Act.call m) :: tag a (rest ++ [Act.rel]) from rfl]
      rw [List.cons_append, h3]
    | right hI2 =>
      simp [validFrom, lockStep] at hv

/-- A `with self.lock:` body made of transport calls, as produced by the
test7 wrappers and poll cycle. -/
def LockedBlock (l : List Act) : Prop :=
  ∃ body, callsOnly body = true ∧ l = Act.acq :: body ++ [Act.rel]

/-- The mutual-exclusion core: every valid interleaving of two locked blocks
is one of the two sequential orders — the transport calls of the two
critical sections can never interleave. -/
theorem withLock_serializes {p q : List Act} (hp : LockedBlock p)
    (hq : LockedBlock q) (tr : List Ev)
    (hI : Interleave (tag true p) (tag false q) tr)
    (hv : validFrom none tr = true) :
    tr = tag true p ++ tag false q ∨ tr = tag false q ++ tag true p := by
  obtain ⟨b1, hb1, rfl⟩ := hp
  obtain ⟨b2, hb2, rfl⟩ := hq
  rw [show tag true (Act.acq :: b1 ++ [Act.rel]) =
      (true, Act.acq) :: tag true (b1 ++ [Act.rel]) from rfl,
    show tag false (Act.acq :: b2 ++ [Act.rel]) =
      (false, Act.acq) :: tag false (b2 ++ [Act.rel]) from rfl] at hI
  cases hI with
  | left hI2 =>
    rename_i tr2
    have hv2 : validFrom (some true) tr2 = true := by
      simpa [validFrom, lockStep] using hv
    left
    have h3 := holder_runs b1 hb1 (b2 ++ [Act.rel]) tr2 hI2 hv2
    rw [show tag true (Act.acq :: b1 ++ [Act.rel]) =
        (true, Act.acq) :: tag true (b1 ++ [Act.rel]) from rfl,
      List.cons_append, h3]
    rfl
  | right hI2 =>
    rename_i tr2
    have hv2 : validFrom (some false) tr2 = true := by
      simpa [validFrom, lockStep] using hv
    right
    have h3 := holder_runs b2 hb2 (b1 ++ [Act.rel]) tr2
      (interleave_swap hI2) hv2
    rw [show tag false (Act.acq :: b2 ++ [Act.rel]) =
        (false, Act.acq) :: tag false (b2 ++ [Act.rel]) from rfl,
      List.cons_append, h3]
    rfl

/-- Lock depth check: every transport call in the sequence happens at
positive lock depth (i.e. while the lock is held). -/
def lockedFrom : ℕ → List Act → Bool
  | _, [] => true
  | d, Act.acq :: r => lockedFrom (d + 1) r
  | d, Act.rel :: r => lockedFrom (d - 1) r
  | d, Act.call _ :: r => decide (0 < d) && lockedFrom d r

/-- Every transport call of the operation executes while holding the lock. -/
def allLocked (l : List Act) : Bool := lockedFrom 0 l

/-- Calls inside a held lock stay at positive depth. -/
theorem lockedFrom_calls (d : ℕ) (hd : 0 < d) :
    ∀ (body : List Act), callsOnly body = true →
      lockedFrom d (body ++ [Act.rel]) = true := by
  intro body
  induction body with
  | nil => intro _; rfl
  | cons x rest ih =>
    intro hco
    have hx : ∃ m, x = Act.call m := by
      cases x with
      | call m => exact ⟨m, rfl⟩
      | acq => simp [callsOnly] at hco
      | rel => simp [callsOnly] at hco
    obtain ⟨m, rfl⟩ := hx
    have hco2 : callsOnly rest = true := by
      simp [callsOnly] at hco ⊢
      exact hco
    simp [lockedFrom, hd, ih hco2]

/-- A locked block performs all its transport calls with the lock held. -/
theorem allLocked_of_block {l : List Act} (h : LockedBlock l) :
    allLocked l = true := by
  obtain ⟨body, hb, rfl⟩ := h
  show lockedFrom 1 (body ++ [Act.rel]) = true
  exact lockedFrom_calls 1 (by norm_num) body hb

/-- The critical sections through which every test7 device write/query goes:
the five thread-safe wrappers (user-triggered configuration, including every
write issued by `fg_update` and `slider_moved`) and the poll-loop cycle. -/
def Crit7 (l : List Act) : Prop :=
  (∃ c, l = ps_write c) ∨ (∃ c, l = ps_query c) ∨ (∃ c, l = dmm_query c) ∨
  (∃ c, l = fg_write c) ∨ (∃ c, l = fg_query c) ∨ l = poll_cycle7

/-- Each test7 critical section is a locked block of transport calls. -/
theorem crit7_block {l : List Act} (h : Crit7 l) : LockedBlock l := by
  rcases h with ⟨c, rfl⟩ | ⟨c, rfl⟩ | ⟨c, rfl⟩ | ⟨c, rfl⟩ | ⟨c, rfl⟩ | rfl
  · exact ⟨[Act.call ("PS.write " ++ c)], rfl, rfl⟩
  · exact ⟨[Act.call ("PS.query " ++ c)], rfl, rfl⟩
  · exact ⟨[Act.call ("DMM.query " ++ c)], rfl, rfl⟩
  · exact ⟨[Act.call ("FGEN.write " ++ c)], rfl, rfl⟩
  · exact ⟨[Act.call ("FGEN.query " ++ c)], rfl, rfl⟩
  · exact ⟨[Act.call "PS.query V1?", Act.call "DMM.write CONF:VOLT:DC 10",
      Act.call "DMM.query READ?"], rfl, rfl⟩

/-- C1 (amended to the test7_GUI_Final variant): every device write and
query of test7 — the configuration wrappers and the telemetry poll cycle —
performs its transport calls with the global lock held, and every valid
two-thread interleaving of two such critical sections runs one completely
before the other: their transport calls never interleave. -/
theorem bus_gate_mutex (p q : List Act) (tr : List Ev)
    (hp : Crit7 p) (hq : Crit7 q)
    (hI : Interleave (tag true p) (tag false q) tr)
    (hv : validFrom none tr = true) :
    allLocked p = true ∧ allLocked q = true ∧
    (tr = tag true p ++ tag false q ∨ tr = tag false q ++ tag true p) :=
  ⟨allLocked_of_block (crit7_block hp), allLocked_of_block (crit7_block hq),
   withLock_serializes (crit7_block hp) (crit7_block hq) tr hI hv⟩

/-- Witness for C1: a PS write overlapping a poll cycle in the sequential
order is a valid interleaving, both operations hold the lock for their
calls, and the conclusion holds for it. -/
theorem bus_gate_mutex_witness :
    allLocked (ps_write "V1 5.0") = true ∧ allLocked poll_cycle7 = true ∧
    (tag true (ps_write "V1 5.0") ++ tag false poll_cycle7 =
        tag true (ps_write "V1 5.0") ++ tag false poll_cycle7 ∨
      tag true (ps_write "V1 5.0") ++ tag false poll_cycle7 =
        tag false poll_cycle7 ++ tag true (ps_write "V1 5.0")) :=
  bus_gate_mutex (ps_write "V1 5.0") poll_cycle7
    (tag true (ps_write "V1 5.0") ++ tag false poll_cycle7)
    (Or.inl ⟨"V1 5.0", rfl⟩) (Or.inr (Or.inr (Or.inr (Or.inr (Or.inr rfl)))))
    (interleave_append _ _) (by decide)

/-- The thread tags of the transport calls of a trace, in order. -/
def callTags (tr : List Ev) : List Bool :=
  tr.filterMap fun e => match e.2 with | Act.call _ => some e.1 | _ => none

/-- How many times the trace switches between the two threads' transport
calls; a serialized pair of operations switches at most once. -/
def switches : List Bool → ℕ
  | a :: b :: r => (if a = b then 0 else 1) + switches (b :: r)
  | _ => 0

/-- A scheduler order in which the test4 slider write lands between the
transport calls of a test4 poll cycle. -/
def mixedTrace4 : List Ev :=
  [(true, Act.call "PS.query V1?"), (false, Act.call "PS.write V1 7.0"),
   (true, Act.call "DMM.write CONF:VOLT:DC 10"),
   (true, Act.call "DMM.query READ?")]

/-- C1 counterexample, on the cited test4 variant: its poll cycle and its
slider callback perform transport calls while holding no lock at all, and
there is a valid interleaving of the two in which the slider's write lands
between the poll cycle's calls — the byte-level interleaving the claim rules
out (the call tags switch thread twice). -/
theorem unlocked_interleaving_test4 :
    allLocked poll_cycle4 = false ∧
    allLocked (slider_moved4 "7.0") = false ∧
    Interleave (tag true poll_cycle4) (tag false (slider_moved4 "7.0"))
      mixedTrace4 ∧
    validFrom none mixedTrace4 = true ∧
    switches (callTags mixedTrace4) = 2 := by
  refine ⟨rfl, rfl, ?_, rfl, rfl⟩
  exact Interleave.left (Interleave.right (Interleave.left
    (Interleave.left Interleave.nil)))

/-- Witness for C3: idempotence at a concrete fully-connected state. -/
theorem shutdown_idempotent_witness :
    safe_exit7 (safe_exit7 ⟨true, true,
        [⟨Role.PS, true⟩, ⟨Role.DMM, true⟩, ⟨Role.FGEN, true⟩], true, []⟩) =
      safe_exit7 ⟨true, true,
        [⟨Role.PS, true⟩, ⟨Role.DMM, true⟩, ⟨Role.FGEN, true⟩], true, []⟩ ∧
    (safe_exit7 (safe_exit7 ⟨true, true,
        [⟨Role.PS, true⟩, ⟨Role.DMM, true⟩, ⟨Role.FGEN, true⟩],
        true, []⟩)).trace =
      (safe_exit7 ⟨true, true,
        [⟨Role.PS, true⟩, ⟨Role.DMM, true⟩, ⟨Role.FGEN, true⟩],
        true, []⟩).trace :=
  shutdown_idempotent ⟨true, true,
    [⟨Role.PS, true⟩, ⟨Role.DMM, true⟩, ⟨Role.FGEN, true⟩], true, []⟩

/-- Witness for C5: with the first three cycles failing the loop still
returns normally. -/
theorem poller_never_exits_on_error_witness :
    (poll_loop failThreeThenOk (fun _ => true) 3 0).isOk = true :=
  poller_never_exits_on_error.1 failThreeThenOk (fun _ => true) 3 0
